import Mathlib

/-!
Shallow embedding of the bSuite database access layer
(`bSuite/database/base.py`): comparator inference, query executor,
schema cache, select / insert / delete statement construction, and the
pooled cursor scope.  Python values are modelled by `PyVal`, the
database driver by a pure oracle `Backend` mapping a statement and its
bound parameters to a cursor (column description + fetched rows).
-/

set_option autoImplicit false

/-- Model of the Python scalar values that flow through this layer:
strings, integers, booleans and `None`. -/
inductive PyVal where
  | str (s : String)
  | int (n : Int)
  | bool (b : Bool)
  | none
deriving DecidableEq, Repr

/-- Prefix test on character lists (`leadEq p l` iff `p` is an initial
segment of `l`), used to model Python's substring containment. -/
def leadEq : List Char → List Char → Bool
  | [], _ => true
  | _ :: _, [] => false
  | a :: as, b :: bs => a == b && leadEq as bs

/-- Contiguous-substring search on character lists. -/
def subIn (pat : List Char) : List Char → Bool
  | [] => leadEq pat []
  | c :: rest => leadEq pat (c :: rest) || subIn pat rest

/-- Python's `pat in s` substring containment on strings. -/
def strIn (pat s : String) : Bool := subIn pat.toList s.toList

/-- Return type of `get_comparator`: either a bare comparator keyword
(Python returns a `str`) or a comparator paired with a `None`
replacement value (Python returns a `tuple`). -/
inductive CompResult where
  | op (c : String)
  | opNull (c : String)
deriving DecidableEq, Repr

/-- `get_comparator` from `base.py`.  Note that Python's `bool` is a
subclass of `int`, so `isinstance(v, int)` is true for booleans and
they take the `'='` branch, not the default `'is'` branch. -/
def get_comparator : PyVal → CompResult
  | PyVal.str v =>
      if strIn "null" v then
        if strIn "not" v then CompResult.opNull "is not" else CompResult.opNull "is"
      else CompResult.op "like"
  | PyVal.int _ => CompResult.op "="
  | PyVal.bool _ => CompResult.op "="
  | PyVal.none => CompResult.op "is"

/-- One condition of the select WHERE clause: the text
`f'\x7bk\x7d \x7bcomparator\x7d %s'` and the bound value (replaced by a
true null when `get_comparator` returned a tuple). -/
def selectCondition (k : String) (v : PyVal) : String × PyVal :=
  match get_comparator v with
  | CompResult.opNull c => (k ++ (" " ++ (c ++ " %s")), PyVal.none)
  | CompResult.op c => (k ++ (" " ++ (c ++ " %s")), v)

/-- One condition of the delete WHERE clause:
`'like' if isinstance(v, str) else 'is'`, value always bound as-is. -/
def deleteCondition (k : String) (v : PyVal) : String × PyVal :=
  (k ++ (" " ++ ((match v with | PyVal.str _ => "like" | _ => "is") ++ " %s")), v)

/-- Model of a psycopg2 cursor after `execute` + `fetchall`: the
reported column description and the fetched rows. -/
structure PgCursor where
  description : List String
  rows : List (List PyVal)
deriving DecidableEq, Repr

/-- The database driver as a pure oracle: a statement and its optional
bound parameters determine the resulting cursor contents. -/
def Backend := String → Option (List PyVal) → PgCursor

/-- A statement submitted for execution: SQL text plus optional bound
parameters (the arguments of `csr.execute`). -/
abbrev Stmt := String × Option (List PyVal)

/-- Shapes `CoreDatabase.query` can return besides `None`: a list of
dict-records or a list of plain tuples. -/
inductive QueryResult where
  | records (rs : List (List (String × PyVal)))
  | tuples (ts : List (List PyVal))
deriving DecidableEq, Repr

/-- Elements of the list returned by `CoreDatabase.select`: a bare
scalar (single-field unwrap), a dict-record, or a plain tuple. -/
inductive PyObj where
  | v (x : PyVal)
  | dict (d : List (String × PyVal))
  | tup (t : List PyVal)
deriving DecidableEq, Repr

namespace CoreDatabase

/-- `CoreDatabase.query` from `base.py`: execute the statement, fetch
unless `no_resp`, and shape rows as dict-records (zipped with the
column description) unless `as_tuple`.  Falls off the end — returning
Python `None`, here `Option.none` — when nothing was fetched. -/
def query (backend : Backend) (q : String) (vals : Option (List PyVal))
    (as_tuple : Bool) (no_resp : Bool) : Option QueryResult :=
  let csr := backend q vals
  let cols : List String :=
    if no_resp then [] else if as_tuple then [] else csr.description
  let fetched : List (List PyVal) := if no_resp then [] else csr.rows
  if fetched.isEmpty then none
  else if cols.isEmpty = false then
    some (QueryResult.records (fetched.map fun row => cols.zip row))
  else if as_tuple then some (QueryResult.tuples fetched)
  else none

/-- Python truthiness of a `query` response (`if not resp`). -/
def respTruthy : Option QueryResult → Bool
  | none => false
  | some (QueryResult.records rs) => rs.isEmpty = false
  | some (QueryResult.tuples ts) => ts.isEmpty = false

/-- The catalog statement run by the `tables` property. -/
def catalogQuery : String :=
  "select table_name from information_schema.tables where table_schema = 'public'"

/-- Python truthiness of the `_tables` attribute (`if not self._tables`):
falsy when still `None` or when the cached list is empty. -/
def cacheTruthy : Option (List PyVal) → Bool
  | none => false
  | some l => l.isEmpty = false

/-- The comprehension `[x[0] for x in resp if x] if resp else []` over a
catalog response.  The `records` case cannot occur for an `as_tuple`
query (see `query_as_tuple_no_records`). -/
def rowFirsts : Option QueryResult → List PyVal
  | none => []
  | some (QueryResult.tuples ts) => ts.filterMap List.head?
  | some (QueryResult.records _) => []

/-- One evaluation of the `tables` property over the cached `_tables`
value: returns the new cache and whether the catalog query was issued. -/
def tablesStep (backend : Backend) (cache : Option (List PyVal)) :
    Option (List PyVal) × Bool :=
  if cacheTruthy cache then (cache, false)
  else (some (rowFirsts (query backend catalogQuery none true false)), true)

/-- The list of table names the `tables` property yields for a given
cache state. -/
def tablesOf (backend : Backend) (cache : Option (List PyVal)) : List PyVal :=
  ((tablesStep backend cache).1).getD []

/-- `n` successive evaluations of the `tables` property starting from an
unpopulated cache; returns the final cache and how many catalog queries
were issued in total. -/
def runTables (backend : Backend) : Nat → Option (List PyVal) × Nat
  | 0 => (none, 0)
  | Nat.succ n =>
      let sc := runTables backend n
      let st := tablesStep backend sc.1
      (st.1, sc.2 + (if st.2 then 1 else 0))

/-- Python truthiness of the `where` argument (`if not where`). -/
def whereTruthy : Option (List (String × PyVal)) → Bool
  | none => false
  | some l => l.isEmpty = false

/-- The select WHERE loop: condition strings joined with `' and '`
after `' where '`, and the bound values in the same order. -/
def buildWhere (w : List (String × PyVal)) : String × List PyVal :=
  let conds := w.map fun kv => selectCondition kv.1 kv.2
  (" where " ++ String.intercalate " and " (conds.map Prod.fst),
   conds.map Prod.snd)

/-- `f' limit \x7blimit\x7d' if limit else ''`: only a truthy (non-`None`,
non-zero) limit produces a LIMIT suffix. -/
def limitStr : Option Int → String
  | none => ""
  | some n => if n = 0 then "" else " limit " ++ toString n

/-- The statement `select` submits: the SQL text and the
`None if not passed_vars else tuple(passed_vars)` parameters. -/
def selectStmt (table field : String) (w : Option (List (String × PyVal)))
    (limit : Option Int) : Stmt :=
  let wp : String × List PyVal :=
    if whereTruthy w then buildWhere (w.getD []) else ("", [])
  let vals : Option (List PyVal) := if wp.2.isEmpty then none else some wp.2
  ("select " ++ field ++ " from " ++ table ++ wp.1 ++ limitStr limit ++ ";", vals)

/-- `single = field != '*' and field.find(',') == -1`: a lone concrete
field, neither the wildcard nor a comma-separated list. -/
def single (field : String) : Bool :=
  field ≠ "*" && field.toList.contains ',' = false

/-- The comprehension `[x[0] for x in resp]` over a tuple list;
an empty tuple raises `IndexError`. -/
def mapIdx0 : List (List PyVal) → Except String (List PyVal)
  | [] => Except.ok []
  | [] :: _ => Except.error "IndexError: tuple index out of range"
  | (x :: _) :: rest => (mapIdx0 rest).map fun l => x :: l

/-- Outcome of one `select` call: the schema-cache state afterwards, the
statements executed (in order), and the returned value or raised error. -/
structure SelectOut where
  cache : Option (List PyVal)
  trace : List Stmt
  result : Except String (List PyObj)
deriving Repr

/-- `CoreDatabase.select` from `base.py`: schema-cache validation,
WHERE/LIMIT construction, execution, and result reshaping (flat scalar
list when a single concrete field was requested, `[]` on a falsy
response). -/
def select (backend : Backend) (cache : Option (List PyVal)) (table : String)
    (field : String) (w : Option (List (String × PyVal)))
    (limit : Option Int) : SelectOut :=
  let step := tablesStep backend cache
  let tbls := step.1.getD []
  let ctrace : List Stmt := if step.2 then [(catalogQuery, none)] else []
  if tbls.contains (PyVal.str table) = false then
    { cache := step.1, trace := ctrace,
      result := Except.error
        ("Table \"" ++ table ++ "\" is unavailable in current database.") }
  else
    let qv := selectStmt table field w limit
    let resp := query backend qv.1 qv.2 (single field) false
    { cache := step.1, trace := ctrace ++ [qv],
      result :=
        if respTruthy resp = false then Except.ok []
        else
          match resp with
          | some (QueryResult.tuples ts) =>
              if single field then (mapIdx0 ts).map fun l => l.map PyObj.v
              else Except.ok (ts.map PyObj.tup)
          | some (QueryResult.records rs) =>
              if single field then Except.error "KeyError: 0"
              else Except.ok (rs.map PyObj.dict)
          | none => Except.ok [] }

/-- The INSERT statement and flattened parameter tuple built by
`CoreDatabase.insert`: columns from the first record's keys, one
`(%s, ...)` group per record, and the conflict clause from the
truthiness of `upsert_on`.  An empty batch raises `IndexError` at
`data[0]`. -/
def insertStmt (table : String) (data : List (List (String × PyVal)))
    (upsert_on : Option String) : Except String (String × List PyVal) :=
  match data with
  | [] => Except.error "IndexError: list index out of range"
  | first :: _ =>
    let kls := first.map Prod.fst
    let ks := "(" ++ String.intercalate ", " kls ++ ")"
    let kvs := "(" ++ String.intercalate ", " (kls.map fun _ => "%s") ++ ")"
    let vks := String.intercalate ", " (data.map fun _ => kvs)
    let vs := (data.map fun r => r.map Prod.snd).flatten
    let ex_ks := "(" ++ String.intercalate ", " (kls.map fun k => "EXCLUDED." ++ k) ++ ")"
    let collision :=
      match upsert_on with
      | none => "DO NOTHING"
      | some u =>
          if u.isEmpty then "DO NOTHING"
          else "(" ++ u ++ ") DO UPDATE SET " ++ ks ++ " = " ++ ex_ks
    Except.ok
      ("insert into " ++ table ++ " " ++ ks ++ " VALUES " ++ vks ++
        " ON CONFLICT " ++ collision ++ ";", vs)

/-- `CoreDatabase.insert` from `base.py`: builds the statement and
submits it with `no_resp=True`.  There is no table validation on this
path — the statement is always sent.  Returns the executed statements
and the (layer-level) outcome. -/
def insert (backend : Backend) (table : String)
    (data : List (List (String × PyVal))) (upsert_on : Option String) :
    List Stmt × Except String Unit :=
  match insertStmt table data upsert_on with
  | Except.error e => ([], Except.error e)
  | Except.ok qvs =>
      let _ := query backend qvs.1 (some qvs.2) false true
      ([(qvs.1, some qvs.2)], Except.ok ())

/-- The DELETE statement and parameters built by `CoreDatabase.delete`:
`'like'` for strings, `'is'` for everything else, no schema-cache
check, values bound in order. -/
def deleteStmt (table : String) (w : List (String × PyVal)) :
    String × List PyVal :=
  let conds := w.map fun kv => deleteCondition kv.1 kv.2
  ("delete from " ++ table ++ " where " ++
     String.intercalate " and " (conds.map Prod.fst),
   conds.map Prod.snd)

end CoreDatabase

/-- Model of a psycopg2 connection: whether it has been closed and its
autocommit flag. -/
structure PgConn where
  closed : Bool := false
  autocommit : Bool := false
deriving DecidableEq, Repr

/-- Model of the connection pool: the list of reusable connections
currently available. -/
structure PgPool where
  pool : List PgConn
deriving DecidableEq, Repr

/-- `getconn`: hand out an available connection, or lazily create a
fresh open one when none is available. -/
def PgPool.getconn : PgPool → PgPool × PgConn
  | { pool := c :: rest } => ({ pool := rest }, c)
  | { pool := [] } => ({ pool := [] }, {})

/-- Modelled from the spec (§4.1) and psycopg2's documented pool
behaviour, since the pool class itself is a library dependency:
`putconn` returns a connection to the pool for reuse, but a connection
that has been closed cannot be reused and is discarded. -/
def PgPool.putconn (p : PgPool) (c : PgConn) : PgPool :=
  if c.closed then p else { pool := p.pool ++ [c] }

/-- `CoreDatabase.cursor` on its normal exit path: `getconn`, set
autocommit, open a cursor, yield, then in `finally`: `cxn.commit()`,
`curs.close()`, `cxn.close()`, `self.pool.putconn(cxn)` — in that
order, so the connection is closed before it is put back.  Returns the
pool after the scope and the connection object as it was handed to
`putconn`. -/
def cursorScope (p : PgPool) : PgPool × PgConn :=
  let pc := p.getconn
  let cxn := { pc.2 with autocommit := true }
  let cxn := { cxn with closed := true }
  (pc.1.putconn cxn, cxn)

/-- A concrete backend for witnesses: the catalog lists one table `t`;
every other statement reports one column `a` and no rows. -/
def wBackend : Backend := fun q _ =>
  if q = CoreDatabase.catalogQuery then
    { description := ["table_name"], rows := [[PyVal.str "t"]] }
  else { description := ["a"], rows := [] }

/-- A backend whose catalog is empty and that returns no rows at all. -/
def emptyBackend : Backend := fun _ _ => { description := [], rows := [] }

/-- A backend that reports a column but zero rows for every statement. -/
def colsBackend : Backend := fun _ _ => { description := ["a"], rows := [] }

/-- A backend with one table `t` holding two rows in column `a`. -/
def rowsBackend : Backend := fun q _ =>
  if q = CoreDatabase.catalogQuery then
    { description := ["table_name"], rows := [[PyVal.str "t"]] }
  else { description := ["a"], rows := [[PyVal.int 1], [PyVal.int 2]] }

-- quick sanity checks of the embedding on concrete inputs
example : CoreDatabase.tablesOf wBackend none = [PyVal.str "t"] := by decide
example : (CoreDatabase.select rowsBackend none "t" "a" none none).result
    = Except.ok [PyObj.v (PyVal.int 1), PyObj.v (PyVal.int 2)] := rfl
example : (CoreDatabase.select rowsBackend none "t" "*" none none).result
    = Except.ok [PyObj.dict [("a", PyVal.int 1)], PyObj.dict [("a", PyVal.int 2)]] := rfl
example : (CoreDatabase.select wBackend none "t" "a" none none).result
    = Except.ok [] := rfl
example : (CoreDatabase.select wBackend none "missing" "*" none none).result
    = Except.error "Table \"missing\" is unavailable in current database." := rfl
example : CoreDatabase.selectStmt "t" "*" (some [("name", PyVal.str "al%")]) none
    = ("select * from t where name like %s;", some [PyVal.str "al%"]) := by decide
example : CoreDatabase.selectStmt "t" "*" none (some 5)
    = ("select * from t limit 5;", none) := by decide
example : CoreDatabase.insertStmt "t" [[("a", PyVal.int 1), ("b", PyVal.str "x")],
      [("a", PyVal.int 2), ("b", PyVal.str "y")]] none
    = Except.ok ("insert into t (a, b) VALUES (%s, %s), (%s, %s) ON CONFLICT DO NOTHING;",
        [PyVal.int 1, PyVal.str "x", PyVal.int 2, PyVal.str "y"]) := rfl
example : CoreDatabase.insertStmt "t" [[("a", PyVal.int 1), ("b", PyVal.str "x")]] (some "a")
    = Except.ok ("insert into t (a, b) VALUES (%s, %s) ON CONFLICT (a) DO UPDATE SET (a, b) = (EXCLUDED.a, EXCLUDED.b);",
        [PyVal.int 1, PyVal.str "x"]) := rfl
example : CoreDatabase.deleteStmt "t" [("name", PyVal.str "is null"), ("ok", PyVal.bool true)]
    = ("delete from t where name like %s and ok is %s",
       [PyVal.str "is null", PyVal.bool true]) := by decide
example : get_comparator (PyVal.str "is null") = CompResult.opNull "is" := by decide
example : get_comparator (PyVal.str "not null") = CompResult.opNull "is not" := by decide
example : get_comparator (PyVal.str "al%") = CompResult.op "like" := by decide
example : get_comparator (PyVal.int 7) = CompResult.op "=" := by decide
example : get_comparator (PyVal.bool false) = CompResult.op "=" := by decide
example : get_comparator PyVal.none = CompResult.op "is" := by decide
example : selectCondition "deleted_at" (PyVal.str "is null")
    = ("deleted_at is %s", PyVal.none) := by decide
example : deleteCondition "name" (PyVal.str "is null")
    = ("name like %s", PyVal.str "is null") := by decide

/-! ## Helper lemmas -/

/-- Mapping a constant over a list yields `replicate`: used to count the
`(%s, ...)` parameter groups of an INSERT batch. -/
theorem map_const_eq_replicate {α β : Type} (l : List α) (b : β) :
    (l.map fun _ => b) = List.replicate l.length b := by
  induction l with
  | nil => rfl
  | cons a t ih => simp [List.replicate_succ, ih]

/-- An `as_tuple` query never returns dict-records: the column list is
skipped, so the records branch is unreachable. -/
theorem query_as_tuple_no_records (backend : Backend) (q : String)
    (vals : Option (List PyVal)) (nr : Bool) (rs : List (List (String × PyVal))) :
    CoreDatabase.query backend q vals true nr ≠ some (QueryResult.records rs) := by
  unfold CoreDatabase.query
  cases nr <;> simp

/-- A statement that fetches zero rows makes `query` fall off the end
and return `None`, whatever the shaping flags are. -/
theorem query_none_of_rows_empty (backend : Backend) (q : String)
    (vals : Option (List PyVal)) (as_tuple no_resp : Bool)
    (h : (backend q vals).rows = []) :
    CoreDatabase.query backend q vals as_tuple no_resp = none := by
  unfold CoreDatabase.query
  cases no_resp <;> simp [h]

/-- On an unpopulated cache the `tables` step stores the catalog result. -/
theorem tablesStep_none_eq (backend : Backend) :
    (CoreDatabase.tablesStep backend none).1 =
      some (CoreDatabase.rowFirsts
        (CoreDatabase.query backend CoreDatabase.catalogQuery none true false)) := rfl

/-- Stepping `tables` from a truthy (nonempty) cache returns it as-is
without a catalog query. -/
theorem tablesStep_truthy (backend : Backend) (s : Option (List PyVal))
    (h : CoreDatabase.cacheTruthy s = true) :
    CoreDatabase.tablesStep backend s = (s, false) := by
  unfold CoreDatabase.tablesStep
  rw [if_pos h]

/-- Stepping `tables` from a falsy cache (unpopulated or empty) issues
the catalog query and stores its parsed result. -/
theorem tablesStep_falsy (backend : Backend) (s : Option (List PyVal))
    (h : CoreDatabase.cacheTruthy s = false) :
    CoreDatabase.tablesStep backend s =
      (some (CoreDatabase.rowFirsts
        (CoreDatabase.query backend CoreDatabase.catalogQuery none true false)), true) := by
  unfold CoreDatabase.tablesStep
  rw [if_neg (by simp [h])]

/-- Stepping `tables` from the state reached after the first call leaves
the cache unchanged and re-issues the catalog query exactly when the
cached list is falsy (empty). -/
theorem tablesStep_fix (backend : Backend) :
    CoreDatabase.tablesStep backend (CoreDatabase.tablesStep backend none).1 =
      ((CoreDatabase.tablesStep backend none).1,
        !CoreDatabase.cacheTruthy (CoreDatabase.tablesStep backend none).1) := by
  cases hC : CoreDatabase.cacheTruthy (CoreDatabase.tablesStep backend none).1 with
  | true =>
    rw [tablesStep_truthy backend _ hC]
    rfl
  | false =>
    rw [tablesStep_falsy backend _ hC, tablesStep_none_eq]
    rfl

/-- After `m + 1` evaluations of `tables` the cache holds the first
catalog result, and the number of catalog queries issued is `1` when
that result was truthy (nonempty) and `m + 1` when it was falsy. -/
theorem runTables_succ_spec (backend : Backend) (m : Nat) :
    CoreDatabase.runTables backend (m + 1) =
      ((CoreDatabase.tablesStep backend none).1,
        if CoreDatabase.cacheTruthy (CoreDatabase.tablesStep backend none).1 then 1
        else m + 1) := by
  induction m with
  | zero =>
    rw [ite_self]
    rfl
  | succ k ih =>
    show ((CoreDatabase.tablesStep backend (CoreDatabase.runTables backend (k + 1)).1).1,
      (CoreDatabase.runTables backend (k + 1)).2 +
        if (CoreDatabase.tablesStep backend (CoreDatabase.runTables backend (k + 1)).1).2
        then 1 else 0) = _
    rw [ih]
    simp only [tablesStep_fix]
    cases hC : CoreDatabase.cacheTruthy (CoreDatabase.tablesStep backend none).1 with
    | true => simp [hC]
    | false => simp [hC]

/-! ## Claim theorems -/

/-- Claim C1 (evidence of the code bug): on the normal exit path of the
`cursor` scope the connection handed to `putconn` has already been
closed by `cxn.close()`, so the pool cannot retain it — the pool after
the scope is exactly the pool after checkout, with nothing returned in
a reusable state.  The spec's contract (connections returned reusable
and reused indefinitely) is violated by every normal exit. -/
theorem cursor_scope_closes_and_discards (p : PgPool) :
    ((cursorScope p).2).closed = true ∧ (cursorScope p).1 = (p.getconn).1 := by
  constructor
  · rfl
  · simp [cursorScope, PgPool.putconn]

/-- Claim C3: the select-path comparator inference follows the priority
rule — a string containing `"null"` yields `is not` (when it also
contains `"not"`) or `is` with the bound value replaced by a true null;
any other string yields `like` with the string bound; an integer yields
`=` with the integer bound. -/
theorem select_comparator_priority (k s : String) (n : Int) :
    (strIn "null" s = true → strIn "not" s = true →
      selectCondition k (PyVal.str s) = (k ++ " is not %s", PyVal.none)) ∧
    (strIn "null" s = true → strIn "not" s = false →
      selectCondition k (PyVal.str s) = (k ++ " is %s", PyVal.none)) ∧
    (strIn "null" s = false →
      selectCondition k (PyVal.str s) = (k ++ " like %s", PyVal.str s)) ∧
    selectCondition k (PyVal.int n) = (k ++ " = %s", PyVal.int n) := by
  refine ⟨fun h1 h2 => ?_, fun h1 h2 => ?_, fun h1 => ?_, rfl⟩
  · have hg : get_comparator (PyVal.str s) = CompResult.opNull "is not" := by
      simp [get_comparator, h1, h2]
    simp only [selectCondition, hg]
    rfl
  · have hg : get_comparator (PyVal.str s) = CompResult.opNull "is" := by
      simp [get_comparator, h1, h2]
    simp only [selectCondition, hg]
    rfl
  · have hg : get_comparator (PyVal.str s) = CompResult.op "like" := by
      simp [get_comparator, h1]
    simp only [selectCondition, hg]
    rfl

/-- Witness for claim C3 at concrete inputs: a `"not null"` marker, an
`"is null"` marker, a plain pattern string, and an integer. -/
theorem select_comparator_priority_witness :
    selectCondition "a" (PyVal.str "not null") = ("a is not %s", PyVal.none) ∧
    selectCondition "b" (PyVal.str "is null") = ("b is %s", PyVal.none) ∧
    selectCondition "c" (PyVal.str "al%") = ("c like %s", PyVal.str "al%") ∧
    selectCondition "d" (PyVal.int 3) = ("d = %s", PyVal.int 3) :=
  ⟨(select_comparator_priority "a" "not null" 3).1 (by decide) (by decide),
   (select_comparator_priority "b" "is null" 3).2.1 (by decide) (by decide),
   (select_comparator_priority "c" "al%" 3).2.2.1 (by decide),
   (select_comparator_priority "d" "al%" 3).2.2.2⟩

/-- Counterexample to claim C4: a boolean where-value does not get the
default `is` comparator — Python's `bool` is a subclass of `int`, so
`get_comparator(True)` takes the integer branch and returns `'='`. -/
theorem bool_comparator_counterexample :
    get_comparator (PyVal.bool true) = CompResult.op "=" ∧
    get_comparator (PyVal.bool true) ≠ CompResult.op "is" := by decide

/-- Claim C4 amended: booleans fall into the *integer* case of the
comparator-inference rule and yield `=`; the `is` default is reached
only by values that are neither strings nor integers (nor booleans),
such as `None`. -/
theorem bool_comparator_eq :
    (∀ b : Bool, get_comparator (PyVal.bool b) = CompResult.op "=") ∧
    get_comparator PyVal.none = CompResult.op "is" :=
  ⟨fun b => by cases b <;> rfl, rfl⟩

/-- Claim C6: on the delete path the comparator is `like` for every
string value — including strings containing `"null"`, whose bound value
also stays the literal string — and `is` for every non-string value;
the select-path inference rule is never applied. -/
theorem delete_comparator_rule (k : String) (v : PyVal) :
    ((∃ s, v = PyVal.str s) → deleteCondition k v = (k ++ " like %s", v)) ∧
    ((¬ ∃ s, v = PyVal.str s) → deleteCondition k v = (k ++ " is %s", v)) := by
  constructor
  · rintro ⟨s, rfl⟩
    rfl
  · intro h
    cases v with
    | str s => exact absurd ⟨s, rfl⟩ h
    | int n => rfl
    | bool b => rfl
    | none => rfl

/-- Witness for claim C6: a null-marker string still gets `like` with
the literal string bound, and a boolean gets `is`. -/
theorem delete_comparator_rule_witness :
    deleteCondition "x" (PyVal.str "is null") = ("x like %s", PyVal.str "is null") ∧
    deleteCondition "y" (PyVal.bool true) = ("y is %s", PyVal.bool true) :=
  ⟨(delete_comparator_rule "x" (PyVal.str "is null")).1 ⟨"is null", rfl⟩,
   (delete_comparator_rule "y" (PyVal.bool true)).2 (by rintro ⟨s, h⟩; cases h)⟩

/-- Counterexample to claim C9: a statement that reports a column
description but fetches zero rows makes `query` return `None`, not an
empty sequence, even though columns were requested (`as_tuple=False`)
— the "absent only when no columns were requested" exception does not
match the code. -/
theorem query_zero_rows_counterexample :
    (colsBackend "select a from t;" none).rows = [] ∧
    (colsBackend "select a from t;" none).description ≠ [] ∧
    CoreDatabase.query colsBackend "select a from t;" none false false = none :=
  ⟨rfl, by decide, rfl⟩

/-- Claim C9 amended: `query` returns the absent value (`None`)
whenever the statement fetches zero rows, for every combination of the
shaping flags — also when columns were requested and reported; callers
must treat `None` as "no rows". -/
theorem query_zero_rows_absent (backend : Backend) (q : String)
    (vals : Option (List PyVal)) (as_tuple no_resp : Bool)
    (h : (backend q vals).rows = []) :
    CoreDatabase.query backend q vals as_tuple no_resp = none :=
  query_none_of_rows_empty backend q vals as_tuple no_resp h

/-- Witness for claim C9 amended at a concrete backend with a reported
column and zero rows. -/
theorem query_zero_rows_absent_witness :
    CoreDatabase.query colsBackend "x" none false false = none :=
  query_zero_rows_absent colsBackend "x" none false false rfl

/-- Claim C10: a limit of zero is falsy, so `select(..., limit=0)`
builds exactly the statement built with no limit — no LIMIT clause at
all — and the whole call (trace, cache and result) is identical to
passing no limit. -/
theorem select_limit_zero_no_clause (backend : Backend)
    (cache : Option (List PyVal)) (table field : String)
    (w : Option (List (String × PyVal))) :
    CoreDatabase.selectStmt table field w (some 0) =
      CoreDatabase.selectStmt table field w none ∧
    CoreDatabase.select backend cache table field w (some 0) =
      CoreDatabase.select backend cache table field w none := by
  have h : CoreDatabase.selectStmt table field w (some 0) =
      CoreDatabase.selectStmt table field w none := by
    simp [CoreDatabase.selectStmt, CoreDatabase.limitStr]
  refine ⟨h, ?_⟩
  unfold CoreDatabase.select
  rw [h]

/-- Counterexample to claim C2: `insert` performs no table validation —
with a schema cache listing only table `t`, inserting into the unknown
table `missing` raises no layer error and submits the INSERT statement
to the driver. -/
theorem insert_unknown_table_counterexample :
    (CoreDatabase.tablesOf wBackend none).contains (PyVal.str "missing") = false ∧
    (CoreDatabase.insert wBackend "missing" [[("a", PyVal.int 1)]] none).1 =
      [("insert into missing (a) VALUES (%s) ON CONFLICT DO NOTHING;",
        some [PyVal.int 1])] ∧
    (CoreDatabase.insert wBackend "missing" [[("a", PyVal.int 1)]] none).2 =
      Except.ok () :=
  ⟨by decide, rfl, rfl⟩

/-- Claim C2 amended: only `select` validates the table name against
the schema cache — on an unknown table it raises the layer `KeyError`
and executes nothing beyond the possible catalog query — while `insert`
performs no layer validation: for any non-empty batch it always submits
exactly its INSERT statement and reports no layer error. -/
theorem select_validates_insert_does_not
    (backend : Backend) (cache : Option (List PyVal)) (table field : String)
    (w : Option (List (String × PyVal))) (limit : Option Int)
    (data : List (List (String × PyVal))) (u : Option String) :
    ((CoreDatabase.tablesOf backend cache).contains (PyVal.str table) = false →
      (CoreDatabase.select backend cache table field w limit).result =
        Except.error
          ("Table \"" ++ table ++ "\" is unavailable in current database.") ∧
      ∀ s ∈ (CoreDatabase.select backend cache table field w limit).trace,
        s.1 = CoreDatabase.catalogQuery) ∧
    (data ≠ [] →
      ∃ q vs, CoreDatabase.insert backend table data u =
        ([(q, some vs)], Except.ok ())) := by
  constructor
  · intro h
    have h' : ((CoreDatabase.tablesStep backend cache).1.getD []).contains
        (PyVal.str table) = false := h
    simp only [CoreDatabase.select]
    rw [if_pos h']
    refine ⟨rfl, fun s hs => ?_⟩
    dsimp only at hs
    split at hs
    · simp only [List.mem_singleton] at hs
      rw [hs]
    · exact absurd hs (List.not_mem_nil s)
  · intro hd
    cases data with
    | nil => exact absurd rfl hd
    | cons d rest => exact ⟨_, _, rfl⟩

/-- Witness for claim C2 amended: the backend with one table `t`,
selecting from and inserting into the unknown table `missing`. -/
theorem select_validates_insert_does_not_witness :
    (CoreDatabase.select wBackend none "missing" "*" none none).result =
      Except.error
        ("Table \"" ++ "missing" ++ "\" is unavailable in current database.") ∧
    (∃ q vs, CoreDatabase.insert wBackend "missing" [[("a", PyVal.int 1)]] none =
      ([(q, some vs)], Except.ok ())) :=
  ⟨((select_validates_insert_does_not wBackend none "missing" "*" none none
      [[("a", PyVal.int 1)]] none).1 (by decide)).1,
   (select_validates_insert_does_not wBackend none "missing" "*" none none
      [[("a", PyVal.int 1)]] none).2 (by decide)⟩

/-- Claim C5: when exactly one concrete field is requested (`single`),
every element of a successful select result is a bare scalar, never a
one-key record; and on a known table whose statement fetches zero rows,
`select` returns the empty list — never an absent value. -/
theorem select_single_unwrap_and_empty
    (backend : Backend) (cache : Option (List PyVal)) (table field : String)
    (w : Option (List (String × PyVal))) (limit : Option Int) :
    (CoreDatabase.single field = true →
      ∀ l, (CoreDatabase.select backend cache table field w limit).result =
          Except.ok l →
        ∀ x ∈ l, ∃ v, x = PyObj.v v) ∧
    ((CoreDatabase.tablesOf backend cache).contains (PyVal.str table) = true →
      (backend (CoreDatabase.selectStmt table field w limit).1
          (CoreDatabase.selectStmt table field w limit).2).rows = [] →
      (CoreDatabase.select backend cache table field w limit).result =
        Except.ok []) := by
  constructor
  · intro hs l hl x hx
    simp only [CoreDatabase.select] at hl
    split at hl
    · simp at hl
    · dsimp only at hl
      split at hl
      · obtain rfl : ([] : List PyObj) = l := by injection hl
        cases hx
      · split at hl
        · rename_i resp ts heq
          cases hi : CoreDatabase.mapIdx0 ts with
          | error e =>
            rw [hi] at hl
            simp [Except.map] at hl
          | ok l' =>
            rw [hi] at hl
            simp only [Except.map, Except.ok.injEq] at hl
            subst hl
            obtain ⟨v, _, rfl⟩ := List.mem_map.mp hx
            exact ⟨v, rfl⟩
        · simp at hl
        · obtain rfl : ([] : List PyObj) = l := by injection hl
          cases hx
  · intro ht hrows
    have hq : CoreDatabase.query backend
        (CoreDatabase.selectStmt table field w limit).1
        (CoreDatabase.selectStmt table field w limit).2
        (CoreDatabase.single field) false = none :=
      query_none_of_rows_empty _ _ _ _ _ hrows
    have ht' : ((CoreDatabase.tablesStep backend cache).1.getD []).contains
        (PyVal.str table) = true := ht
    simp only [CoreDatabase.select]
    rw [if_neg (by rw [ht']; simp)]
    dsimp only
    rw [hq]
    rfl

/-- Witness for claim C5 at the backend with known table `t` and an
empty result set: a single-field select returns the empty flat list. -/
theorem select_single_unwrap_and_empty_witness :
    (∀ x ∈ ([] : List PyObj), ∃ v, x = PyObj.v v) ∧
    (CoreDatabase.select wBackend none "t" "a" none none).result =
      Except.ok [] :=
  ⟨(select_single_unwrap_and_empty wBackend none "t" "a" none none).1
      rfl [] rfl,
   (select_single_unwrap_and_empty wBackend none "t" "a" none none).2
      (by decide) rfl⟩

/-- Counterexample to claim C7: with `upsert_on` present but equal to
the empty string, the conflict clause is `DO NOTHING` — the code tests
Python truthiness (`if not upsert_on`), not presence, so a present
`upsertOn` does not always produce a `DO UPDATE` clause. -/
theorem insert_empty_upsert_counterexample :
    CoreDatabase.insertStmt "t" [[("a", PyVal.int 1)]] (some "") =
      Except.ok ("insert into t (a) VALUES (%s) ON CONFLICT DO NOTHING;",
        [PyVal.int 1]) ∧
    CoreDatabase.insertStmt "t" [[("a", PyVal.int 1)]] (some "") ≠
      Except.ok
        ("insert into t (a) VALUES (%s) ON CONFLICT () DO UPDATE SET (a) = (EXCLUDED.a);",
        [PyVal.int 1]) := by
  refine ⟨rfl, fun h => ?_⟩
  have h2 := congrArg (fun e => match e with
    | Except.ok p => p.1
    | Except.error _ => "") h
  exact absurd h2 (by decide)

/-- Claim C7 amended: for a non-empty batch the first record's keys
define the column list, the VALUES section is one `(%s, ...)` group per
record (each sized by the first record's keys), the bound parameters
are all records' values flattened in row order, and the conflict clause
is `DO NOTHING` when `upsert_on` is absent *or empty* and
`(upsert_on) DO UPDATE SET (cols) = (EXCLUDED.cols)` when it is a
non-empty string. -/
theorem insert_statement_shape (table : String) (d : List (String × PyVal))
    (rest : List (List (String × PyVal))) (u : Option String) :
    CoreDatabase.insertStmt table (d :: rest) u =
      Except.ok
        ("insert into " ++ table ++ " " ++
            ("(" ++ String.intercalate ", " (d.map Prod.fst) ++ ")") ++ " VALUES " ++
            String.intercalate ", "
              (List.replicate (d :: rest).length
                ("(" ++ String.intercalate ", "
                  ((d.map Prod.fst).map fun _ => "%s") ++ ")")) ++
            " ON CONFLICT " ++
            (match u with
             | none => "DO NOTHING"
             | some s =>
                 if s.isEmpty then "DO NOTHING"
                 else "(" ++ s ++ ") DO UPDATE SET " ++
                   ("(" ++ String.intercalate ", " (d.map Prod.fst) ++ ")") ++ " = " ++
                   ("(" ++ String.intercalate ", "
                     ((d.map Prod.fst).map fun k => "EXCLUDED." ++ k) ++ ")")) ++ ";",
         ((d :: rest).map fun r => r.map Prod.snd).flatten) := by
  simp only [CoreDatabase.insertStmt]
  rw [map_const_eq_replicate (d :: rest)]

/-- Counterexample to claim C8: with a backend whose catalog query
returns an empty table set, the second call to `tables` issues the
catalog query again — two calls, two catalog queries, not one. -/
theorem tables_empty_requery_counterexample :
    (CoreDatabase.runTables emptyBackend 2).2 = 2 ∧
    (CoreDatabase.runTables emptyBackend 2).2 ≠ 1 := by decide

/-- Claim C8 amended: the cache check is a truthiness test, so the
catalog query is issued exactly once across any number of calls when
the first call cached a nonempty table set, but it is re-issued by
every call when the cached set is empty. -/
theorem tables_cache_persistence (backend : Backend) (n : Nat) :
    (CoreDatabase.cacheTruthy (CoreDatabase.tablesStep backend none).1 = true →
      (CoreDatabase.runTables backend (n + 1)).2 = 1) ∧
    (CoreDatabase.cacheTruthy (CoreDatabase.tablesStep backend none).1 = false →
      (CoreDatabase.runTables backend (n + 1)).2 = n + 1) := by
  constructor <;> intro h <;> rw [runTables_succ_spec] <;> simp [h]

/-- Witness for claim C8 amended: three calls issue one catalog query
on the nonempty-catalog backend and three on the empty-catalog one. -/
theorem tables_cache_persistence_witness :
    (CoreDatabase.runTables wBackend 3).2 = 1 ∧
    (CoreDatabase.runTables emptyBackend 3).2 = 3 :=
  ⟨(tables_cache_persistence wBackend 2).1 (by decide),
   (tables_cache_persistence emptyBackend 2).2 (by decide)⟩
